import Mathlib

/-!
Verification of the Bunsekikun analyzer core.

A shallow embedding of the analyzer core of `src/app/page.tsx` (a Japanese
morpheme grouping and dictionary-lookup UI) together with proofs about it.

The embedding covers:
* the data model (`KuromojiToken`, `AnalyzedToken`, `AnalyzedWord`,
  the Jisho response types);
* the pure grouping algorithm `groupTokens` (page.tsx lines 143-174);
* the Jisho lookup result mapping `getWordMeaningWithJisho` (lines 176-191);
* the `handleAnalyse` event handler of the `App` component (lines 331-355),
  modelled as a pure state transformer together with a flag recording whether
  the tokenizer was invoked;
* the selection/lookup behaviour of the `WordInfo` component
  (lines 213-241), modelled as a small event-driven transition system in
  which outstanding fetches complete in an arbitrary order;
* the selection marking of `AnalysisDisplay` (lines 286-315).

JavaScript specifics and how they are embedded:
* `token.reading` is declared `string` in the TypeScript interface, but at
  runtime kuromoji omits the field for unknown words, which is why the code
  guards it with `token.reading || token.surface_form`.  We model the field
  as `Option String` and the `||` operator as `jsOr`, which falls back both
  on `none` (JS `undefined`) and on the empty string (both are falsy in JS).
* Asynchronous completion of `fetch` promises is modelled by explicit
  `resolve`/`reject` events carrying the identity of the pending fetch;
  the event handlers are translated directly from the `fetchMeaning`
  closure of `WordInfo`.
-/

/-- A raw token returned by kuromoji.js (interface `KuromojiToken`,
page.tsx lines 8-19).  `reading` and `pronunciation` are `Option` because
kuromoji omits them at runtime for unknown words (the code guards `reading`
with `||`). -/
structure KuromojiToken where
  surface_form : String
  pos : String
  pos_detail_1 : String
  pos_detail_2 : String
  pos_detail_3 : String
  conjugated_type : String
  conjugated_form : String
  basic_form : String
  reading : Option String
  pronunciation : Option String
deriving DecidableEq

/-- The internal representation of a token, source type
`AnalyzedToken = [surface, reading, pos]` (page.tsx line 38).  The tuple
components `[0]`, `[1]`, `[2]` become the fields `surface`, `reading`,
`pos`. -/
structure AnalyzedToken where
  surface : String
  reading : String
  pos : String
deriving DecidableEq

/-- A "word" is a group of one or more tokens (page.tsx line 40). -/
abbrev AnalyzedWord := List AnalyzedToken

/-- JavaScript `r || fallback` for a possibly-undefined string `r`:
falls back when `r` is `undefined` (here `none`) or the empty string,
since both are falsy in JS. -/
def jsOr (r : Option String) (fallback : String) : String :=
  match r with
  | none => fallback
  | some str => if str = "" then fallback else str

/-- The `newToken` construction of `groupTokens` (page.tsx line 150):
`[token.surface_form, token.reading || token.surface_form, token.pos]`. -/
def mkAnalyzedToken (token : KuromojiToken) : AnalyzedToken :=
  { surface := token.surface_form
    reading := jsOr token.reading token.surface_form
    pos := token.pos }

/-- Placeholder token for the total versions of partial JS indexing
(`currentWord[currentWord.length - 1]`, `selectedWord[0]`); all uses are
guarded by non-emptiness, exactly as in the source. -/
def defaultAnalyzedToken : AnalyzedToken :=
  { surface := "", reading := "", pos := "" }

/-- Source expression `currentWord[currentWord.length - 1][2]` (page.tsx line 155): the
part-of-speech of the last token of the open word. -/
def prevPosOf (currentWord : AnalyzedWord) : String :=
  (currentWord.getLastD defaultAnalyzedToken).pos

/-- The continuation test of `groupTokens` (page.tsx lines 156-159),
written against the part-of-speech of the last token of the open word. -/
def continueCond (token : KuromojiToken) (prevPos : String) : Bool :=
  (token.pos == "助動詞" && prevPos == "動詞") ||
  (token.pos == "助詞" && (token.pos_detail_1 == "接続助詞" || token.pos_detail_1 == "終助詞")) ||
  (token.pos == "動詞" && prevPos == "動詞" && token.pos_detail_1 == "非自立") ||
  (token.pos == "名詞" && token.pos_detail_1 == "接尾")

/-- One iteration of the `tokens.forEach` loop of `groupTokens`
(page.tsx lines 149-167).  The accumulator is the pair
`(wordList, currentWord)`. -/
def groupStep (acc : List AnalyzedWord × AnalyzedWord) (token : KuromojiToken) :
    List AnalyzedWord × AnalyzedWord :=
  let newToken := mkAnalyzedToken token
  if acc.2.isEmpty then
    (acc.1, [newToken])
  else if continueCond token (prevPosOf acc.2) then
    (acc.1, acc.2 ++ [newToken])
  else
    (acc.1 ++ [acc.2], [newToken])

/-- Function `groupTokens` (page.tsx lines 143-174): fold the step over the tokens,
then flush the open word if non-empty. -/
def groupTokens (tokens : List KuromojiToken) : List AnalyzedWord :=
  if tokens.isEmpty then []
  else
    let res := tokens.foldl groupStep ([], [])
    if res.2.isEmpty then res.1 else res.1 ++ [res.2]

/-- JavaScript `inputText.trim()`: strip leading and trailing whitespace.
(Defined on the character list so that it evaluates by kernel reduction;
`String.trim` of the standard library is extensionally the same but is
defined by well-founded recursion on byte positions.) -/
def jsTrim (s : String) : String :=
  String.mk (((s.data.dropWhile Char.isWhitespace).reverse.dropWhile
    Char.isWhitespace).reverse)

/-- Specification wording of the grouping continuation rule
(spec section 4.1, step 2), to be compared with the source's
`continueCond`: auxiliary-verb = 助動詞, verb = 動詞, particle = 助詞,
conjunctive-particle = 接続助詞, sentence-final-particle = 終助詞,
non-independent = 非自立, noun = 名詞, suffix = 接尾. -/
def specContinue (token : KuromojiToken) (prevPos : String) : Prop :=
  (token.pos = "助動詞" ∧ prevPos = "動詞") ∨
  (token.pos = "助詞" ∧ (token.pos_detail_1 = "接続助詞" ∨ token.pos_detail_1 = "終助詞")) ∨
  (token.pos = "動詞" ∧ prevPos = "動詞" ∧ token.pos_detail_1 = "非自立") ∨
  (token.pos = "名詞" ∧ token.pos_detail_1 = "接尾")

/-- Jisho API response piece (interface `JishoJapaneseWord`,
page.tsx lines 48-51); both fields are optional in the source. -/
structure JishoJapaneseWord where
  word : Option String
  reading : Option String
deriving DecidableEq

/-- The `links` entries of a sense (page.tsx line 55). -/
structure JishoLink where
  text : String
  url : String
deriving DecidableEq

/-- Interface `JishoSense` (page.tsx lines 52-62). -/
structure JishoSense where
  english_definitions : List String
  parts_of_speech : List String
  links : List JishoLink
  tags : List String
  restrictions : List String
  see_also : List String
  antonyms : List String
  info : List String
deriving DecidableEq

/-- The `attribution` field of `JishoData` (page.tsx lines 70-74);
`dbpedia : boolean | string` becomes a sum type. -/
structure JishoAttribution where
  jmdict : Bool
  jmnedict : Bool
  dbpedia : Sum Bool String
deriving DecidableEq

/-- Interface `JishoData` (page.tsx lines 63-75): one dictionary entry. -/
structure JishoData where
  slug : String
  is_common : Bool
  tags : List String
  jlpt : List String
  japanese : List JishoJapaneseWord
  senses : List JishoSense
  attribution : JishoAttribution
deriving DecidableEq

/-- The parsed response of the `/api/jisho` proxy as `getWordMeaningWithJisho`
sees it: the transport outcome (`response.ok`, `response.status`) and the
parsed JSON body, whose `data` field may be missing (`none`) or hold a list
of entries. -/
structure JishoApiResponse where
  ok : Bool
  status : Nat
  data : Option (List JishoData)

/-- Function `getWordMeaningWithJisho` (page.tsx lines 176-191), as a function of the
response of its single `fetch`: a non-ok response throws
(`Except.error`), a body with at least one entry yields the first entry,
anything else (no `data` field or an empty list) yields `null`
(`Except.ok none`). -/
def getWordMeaningWithJisho (resp : JishoApiResponse) : Except String (Option JishoData) :=
  if !resp.ok then
    Except.error ("Jisho API call failed with status: " ++ toString resp.status)
  else
    match resp.data with
    | some (first :: _) => Except.ok (some first)
    | _ => Except.ok none

/-- The React state of the `App` component (page.tsx lines 317-323) plus the
module-level `kuromojiTokenizer` global (line 101), which we model as an
optional tokenize function. -/
structure AppState where
  inputText : String
  analysis : Option (List AnalyzedWord)
  selectedWord : Option AnalyzedWord
  isLoading : Bool
  tokenizerLoading : Bool
  tokenizer : Option (String → List KuromojiToken)
  error : Option String

/-- Handler `handleAnalyse` (page.tsx lines 331-355) as a pure state transformer.
The returned `Bool` records whether `kuromojiTokenizer.tokenize` was
invoked.  The blank-input and not-ready guards return after only `setError`;
the success path performs `setIsLoading(true)`, `setError(null)`,
`setAnalysis(null)`, `setSelectedWord(null)`, tokenizes, groups, sets the
analysis, and the `finally` block ends with `setIsLoading(false)` — the net
state after the handler completes is recorded.  The modelled tokenize
function is total, so the catch branch of the source is unreachable here. -/
def handleAnalyse (s : AppState) : AppState × Bool :=
  if jsTrim s.inputText = "" then
    ({ s with error := some "Please enter some text to analyze." }, false)
  else if s.tokenizerLoading then
    ({ s with error := some "Tokenizer is not ready yet. Please wait." }, false)
  else
    match s.tokenizer with
    | none =>
        ({ s with error := some "Tokenizer is not ready yet. Please wait." }, false)
    | some tokenize =>
        let tokens := tokenize s.inputText
        let grouped := groupTokens tokens
        ({ s with error := none, analysis := some grouped, selectedWord := none,
                  isLoading := false }, true)

/-- Handler `handleWordSelect` (page.tsx lines 357-359). -/
def handleWordSelect (word : AnalyzedWord) (s : AppState) : AppState :=
  { s with selectedWord := some word }

/-- Function `createKey` of `AnalysisDisplay` (page.tsx line 289):
`word.map(token => token[0]).join('-')`. -/
def createKey (word : AnalyzedWord) : String :=
  String.intercalate "-" (word.map fun t => t.surface)

/-- The `isSelected` computation of `AnalysisDisplay` (page.tsx line 298):
`selectedWord && createKey(word) === createKey(selectedWord)`. -/
def isSelected (selectedWord : Option AnalyzedWord) (word : AnalyzedWord) : Bool :=
  match selectedWord with
  | none => false
  | some sel => createKey word == createKey sel

/-- Source expression `selectedWord[0][0]` (page.tsx line 229): the lookup keyword is the
surface of the word's first token; guarded by non-emptiness in the source. -/
def baseFormOf (word : AnalyzedWord) : String :=
  (word.headD defaultAnalyzedToken).surface

/-- Observable state of the `WordInfo` component (page.tsx lines 213-216)
together with the set of outstanding dictionary fetches.  Each pending
fetch is identified by the value of a counter at the time it was issued and
carries its keyword. -/
structure WordInfoState where
  selectedWord : Option AnalyzedWord
  jishoData : Option JishoData
  isLoading : Bool
  errorMsg : String
  pending : List (Nat × String)
  nextId : Nat
deriving DecidableEq

/-- Events driving `WordInfo`: a change of `selectedWord` (which re-runs the
effect of lines 218-241), and the resolution or rejection of one of the
outstanding fetches, in whatever order the network delivers them. -/
inductive WordInfoEvent where
  | select : Option AnalyzedWord → WordInfoEvent
  | resolve : Nat → Option JishoData → WordInfoEvent
  | reject : Nat → WordInfoEvent

/-- One event step of `WordInfo`, translated from the effect body
(page.tsx lines 218-241):
* `select none`: `setJishoData(null)` and return (lines 219-222);
* `select (some w)`: `setIsLoading(true); setError(''); setJishoData(null)`
  and start a fetch for `w[0][0]` (lines 224-230, 240);
* `resolve id r`: the continuation of `getWordMeaningWithJisho` for the
  outstanding fetch `id` runs `setJishoData(r)` and then
  `setIsLoading(false)` (lines 230-231, 236) — the source performs no check
  that the fetch still belongs to the current selection;
* `reject id`: the catch branch sets the error message, then the finally
  block runs (lines 232-237).
Resolutions of unknown ids (never issued or already consumed) are ignored. -/
def stepWordInfo (s : WordInfoState) (e : WordInfoEvent) : WordInfoState :=
  match e with
  | WordInfoEvent.select none =>
      { s with selectedWord := none, jishoData := none }
  | WordInfoEvent.select (some w) =>
      { s with selectedWord := some w, isLoading := true, errorMsg := "",
               jishoData := none,
               pending := s.pending ++ [(s.nextId, baseFormOf w)],
               nextId := s.nextId + 1 }
  | WordInfoEvent.resolve id result =>
      if s.pending.any (fun p => p.fst == id) then
        { s with jishoData := result, isLoading := false,
                 pending := s.pending.filter (fun p => p.fst != id) }
      else s
  | WordInfoEvent.reject id =>
      if s.pending.any (fun p => p.fst == id) then
        { s with errorMsg := "Failed to fetch definition from Jisho.org.",
                 isLoading := false,
                 pending := s.pending.filter (fun p => p.fst != id) }
      else s

/-- Run `WordInfo` on a sequence of events. -/
def runWordInfo (s : WordInfoState) (es : List WordInfoEvent) : WordInfoState :=
  es.foldl stepWordInfo s

/-- Initial `WordInfo` state: nothing selected, no data, no fetches. -/
def initialWordInfoState : WordInfoState :=
  { selectedWord := none, jishoData := none, isLoading := false,
    errorMsg := "", pending := [], nextId := 0 }

/-! ## Concrete test fixtures -/

/-- Fixture builder: a kuromoji token with the given surface, reading,
part-of-speech and first detail tag. -/
def mkTestToken (s r p d1 : String) : KuromojiToken :=
  { surface_form := s, pos := p, pos_detail_1 := d1, pos_detail_2 := "",
    pos_detail_3 := "", conjugated_type := "", conjugated_form := "",
    basic_form := s, reading := some r, pronunciation := none }

/-- The five tokens of the grouping scenario of spec section 8:
食べ (verb), た (auxiliary verb), の (conjunctive particle), 猫 (noun),
たち (suffix noun). -/
def c5Tokens : List KuromojiToken :=
  [mkTestToken "食べ" "タベ" "動詞" "自立",
   mkTestToken "た" "タ" "助動詞" "",
   mkTestToken "の" "ノ" "助詞" "接続助詞",
   mkTestToken "猫" "ネコ" "名詞" "一般",
   mkTestToken "たち" "タチ" "名詞" "接尾"]

/-- A token whose `reading` field is present but is the empty string. -/
def emptyReadingToken : KuromojiToken :=
  { surface_form := "猫", pos := "名詞", pos_detail_1 := "一般",
    pos_detail_2 := "", pos_detail_3 := "", conjugated_type := "",
    conjugated_form := "", basic_form := "猫", reading := some "",
    pronunciation := none }

/-- A one-token word: surface 猫, hiragana reading. -/
def nekoWord1 : AnalyzedWord :=
  [{ surface := "猫", reading := "ねこ", pos := "名詞" }]

/-- A different one-token word with the same surface 猫 but a katakana
reading, so `nekoWord1 ≠ nekoWord2` while their surface texts agree. -/
def nekoWord2 : AnalyzedWord :=
  [{ surface := "猫", reading := "ネコ", pos := "名詞" }]

/-- Word A of the supersession scenario (slow lookup). -/
def lookupWordA : AnalyzedWord :=
  [{ surface := "走る", reading := "はしる", pos := "動詞" }]

/-- Word B of the supersession scenario (fast lookup). -/
def lookupWordB : AnalyzedWord :=
  [{ surface := "猫", reading := "ねこ", pos := "名詞" }]

/-- Fixture builder: a minimal dictionary entry with the given slug. -/
def mkTestEntry (slug : String) : JishoData :=
  { slug := slug, is_common := true, tags := [], jlpt := [], japanese := [],
    senses := [], attribution := { jmdict := true, jmnedict := false,
                                   dbpedia := Sum.inl false } }

/-- The dictionary entry returned by word A's (late) lookup. -/
def entryA : JishoData := mkTestEntry "hashiru"

/-- The dictionary entry returned by word B's (early) lookup. -/
def entryB : JishoData := mkTestEntry "neko"

/-- The supersession scenario of spec section 8: select A, then select B;
B's lookup (id 1) resolves first, A's lookup (id 0) resolves last. -/
def c1RaceTrace : List WordInfoEvent :=
  [WordInfoEvent.select (some lookupWordA),
   WordInfoEvent.select (some lookupWordB),
   WordInfoEvent.resolve 1 (some entryB),
   WordInfoEvent.resolve 0 (some entryA)]

/-- An app state whose tokenizer is still loading, with non-blank input and
a previously displayed analysis and selection. -/
def notReadyAppState : AppState :=
  { inputText := "猫", analysis := some [nekoWord1], selectedWord := some nekoWord1,
    isLoading := false, tokenizerLoading := true, tokenizer := none, error := none }

/-- An app state with a ready tokenizer but blank (whitespace-only) input,
with a previously displayed analysis and selection. -/
def blankInputAppState : AppState :=
  { inputText := " ", analysis := some [nekoWord1], selectedWord := some nekoWord1,
    isLoading := false, tokenizerLoading := false,
    tokenizer := some (fun _ => []), error := none }

/-- An ok response carrying two entries. -/
def okTwoEntryResponse : JishoApiResponse :=
  { ok := true, status := 200, data := some [entryB, entryA] }

/-- An open word whose single token is verb-tagged. -/
def verbOpenWord : AnalyzedWord :=
  [{ surface := "食べ", reading := "タベ", pos := "動詞" }]

/-- An auxiliary-verb token. -/
def auxTaToken : KuromojiToken := mkTestToken "た" "タ" "助動詞" ""

/-- An independent verb token. -/
def mainVerbToken : KuromojiToken := mkTestToken "食べ" "タベ" "動詞" "自立"

/-- A non-independent verb token (pos 動詞, first detail tag 非自立). -/
def nonIndepVerbToken : KuromojiToken := mkTestToken "しまう" "シマウ" "動詞" "非自立"

/-! ## Helper lemmas about the grouping fold -/

/-- On a non-empty open word, `groupStep` chooses by the continuation test. -/
theorem groupStep_of_ne_nil (wl : List AnalyzedWord) (cw : AnalyzedWord)
    (t : KuromojiToken) (h : cw ≠ []) :
    groupStep (wl, cw) t =
      if continueCond t (prevPosOf cw) then (wl, cw ++ [mkAnalyzedToken t])
      else (wl ++ [cw], [mkAnalyzedToken t]) := by
  have hemp : cw.isEmpty = false := by simp [h]
  simp [groupStep, hemp]

/-- The fold of `groupStep` preserves the token sequence: emitted words plus
the open word always flatten to the already-consumed tokens. -/
theorem foldl_groupStep_flatten (ts : List KuromojiToken) :
    ∀ (wl : List AnalyzedWord) (cw : AnalyzedWord),
      ((ts.foldl groupStep (wl, cw)).1).flatten ++ (ts.foldl groupStep (wl, cw)).2
        = wl.flatten ++ cw ++ ts.map mkAnalyzedToken := by
  induction ts with
  | nil => intro wl cw; simp
  | cons t ts ih =>
    intro wl cw
    rw [List.foldl_cons, List.map_cons]
    rcases eq_or_ne cw [] with hcw | hcw
    · subst hcw
      have hstep : groupStep (wl, []) t = (wl, [mkAnalyzedToken t]) := rfl
      rw [hstep, ih]
      simp
    · rw [groupStep_of_ne_nil wl cw t hcw]
      by_cases hc : continueCond t (prevPosOf cw) = true
      · rw [if_pos hc, ih]
        simp
      · rw [if_neg hc, ih]
        simp [List.flatten_append]

/-- The fold of `groupStep` never emits an empty word, and the open word is
non-empty as soon as any token has entered it. -/
theorem foldl_groupStep_ne_nil (ts : List KuromojiToken) :
    ∀ (wl : List AnalyzedWord) (cw : AnalyzedWord), (∀ w ∈ wl, w ≠ []) →
      (∀ w ∈ (ts.foldl groupStep (wl, cw)).1, w ≠ [])
      ∧ ((cw ≠ [] ∨ ts ≠ []) → (ts.foldl groupStep (wl, cw)).2 ≠ []) := by
  induction ts with
  | nil =>
    intro wl cw hwl
    refine ⟨hwl, ?_⟩
    rintro (h | h)
    · exact h
    · exact absurd rfl h
  | cons t ts ih =>
    intro wl cw hwl
    rw [List.foldl_cons]
    rcases eq_or_ne cw [] with hcw | hcw
    · subst hcw
      have hstep : groupStep (wl, []) t = (wl, [mkAnalyzedToken t]) := rfl
      rw [hstep]
      rcases ih wl [mkAnalyzedToken t] hwl with ⟨h1, h2⟩
      exact ⟨h1, fun _ => h2 (Or.inl (by simp))⟩
    · rw [groupStep_of_ne_nil wl cw t hcw]
      by_cases hc : continueCond t (prevPosOf cw) = true
      · rw [if_pos hc]
        rcases ih wl (cw ++ [mkAnalyzedToken t]) hwl with ⟨h1, h2⟩
        exact ⟨h1, fun _ => h2 (Or.inl (by simp))⟩
      · rw [if_neg hc]
        have hwl2 : ∀ w ∈ wl ++ [cw], w ≠ [] := by
          intro w hw
          rcases List.mem_append.mp hw with hw | hw
          · exact hwl w hw
          · rw [List.mem_singleton.mp hw]
            exact hcw
        rcases ih (wl ++ [cw]) [mkAnalyzedToken t] hwl2 with ⟨h1, h2⟩
        exact ⟨h1, fun _ => h2 (Or.inl (by simp))⟩

/-- Grouping flattens back to the input tokens, each converted by
`mkAnalyzedToken`. -/
theorem groupTokens_flatten (ts : List KuromojiToken) :
    (groupTokens ts).flatten = ts.map mkAnalyzedToken := by
  rcases eq_or_ne ts [] with hts | hts
  · subst hts; rfl
  · have hemp : ts.isEmpty = false := by simp [hts]
    have hfold := foldl_groupStep_flatten ts [] []
    simp only [List.flatten_nil, List.nil_append] at hfold
    unfold groupTokens
    rw [hemp]
    simp only [Bool.false_eq_true, if_false]
    rcases eq_or_ne (ts.foldl groupStep ([], [])).2 [] with h2 | h2
    · rw [h2] at hfold
      simp only [List.append_nil] at hfold
      simp [h2, hfold]
    · have hemp2 : (ts.foldl groupStep ([], [])).2.isEmpty = false := by simp [h2]
      simp [hemp2, List.flatten_append, hfold]

/-- Every word produced by `groupTokens` is non-empty. -/
theorem groupTokens_ne_nil (ts : List KuromojiToken) :
    ∀ w ∈ groupTokens ts, w ≠ [] := by
  rcases eq_or_ne ts [] with hts | hts
  · subst hts; intro w hw; simp [groupTokens] at hw
  · have hemp : ts.isEmpty = false := by simp [hts]
    rcases foldl_groupStep_ne_nil ts [] [] (by simp) with ⟨h1, h2⟩
    unfold groupTokens
    rw [hemp]
    simp only [Bool.false_eq_true, if_false]
    rcases eq_or_ne (ts.foldl groupStep ([], [])).2 [] with hcw2 | hcw2
    · simp only [hcw2, List.isEmpty_nil, if_true]
      exact h1
    · have hemp2 : (ts.foldl groupStep ([], [])).2.isEmpty = false := by simp [hcw2]
      simp only [hemp2, Bool.false_eq_true, if_false]
      intro w hw
      rcases List.mem_append.mp hw with hw | hw
      · exact h1 w hw
      · rw [List.mem_singleton.mp hw]
        exact hcw2

/-- Joining a cons of strings prepends the head. -/
theorem string_join_cons (s : String) (l : List String) :
    String.join (s :: l) = s ++ String.join l := by
  apply String.ext
  simp [String.data_join, String.data_append]

/-- Joining strings distributes over list append. -/
theorem string_join_append (l1 l2 : List String) :
    String.join (l1 ++ l2) = String.join l1 ++ String.join l2 := by
  apply String.ext
  simp [String.data_join, String.data_append, List.flatten_append]

/-- Joining word-level joins equals joining over the flattened list. -/
theorem string_join_flatten {α : Type} (f : α → String) (ws : List (List α)) :
    String.join (ws.map fun w => String.join (w.map f))
      = String.join (ws.flatten.map f) := by
  induction ws with
  | nil => rfl
  | cons w rest ih =>
    simp [string_join_cons, string_join_append, ih, List.flatten_cons]

/-- The boolean continuation test of the source agrees with the rule as the
spec words it. -/
theorem continueCond_iff (t : KuromojiToken) (p : String) :
    continueCond t p = true ↔ specContinue t p := by
  simp [continueCond, specContinue, and_assoc, or_assoc]

/-- A chain of non-independent verbs keeps extending an open word whose
last token is verb-tagged. -/
theorem chain_fold (nv : KuromojiToken) (hpos : nv.pos = "動詞")
    (hdet : nv.pos_detail_1 = "非自立") :
    ∀ (n : Nat) (wl : List AnalyzedWord) (cw : AnalyzedWord),
      cw ≠ [] → prevPosOf cw = "動詞" →
      List.foldl groupStep (wl, cw) (List.replicate n nv)
        = (wl, cw ++ List.replicate n (mkAnalyzedToken nv)) := by
  intro n
  induction n with
  | zero => intro wl cw h hp; simp
  | succ n ih =>
    intro wl cw h hp
    rw [List.replicate_succ, List.foldl_cons]
    have hcc : continueCond nv (prevPosOf cw) = true := by
      rw [hp]
      simp [continueCond, hpos, hdet]
    have hstep : groupStep (wl, cw) nv = (wl, cw ++ [mkAnalyzedToken nv]) := by
      rw [groupStep_of_ne_nil wl cw nv h, if_pos hcc]
    rw [hstep]
    have h2 : (cw ++ [mkAnalyzedToken nv]) ≠ [] := by simp
    have hp2 : prevPosOf (cw ++ [mkAnalyzedToken nv]) = "動詞" := by
      simp [prevPosOf, List.getLastD_concat, mkAnalyzedToken, hpos]
    rw [ih wl (cw ++ [mkAnalyzedToken nv]) h2 hp2]
    simp [List.replicate_succ]

/-! ## Claim theorems -/

/-- Claim C1 (refuted by evaluation — the code lacks the guard the claim
describes): in the supersession scenario the user selects word A, then
word B; B's lookup resolves first and A's late result arrives after B's.
The claim says the final observable lookup state is the Loaded outcome for
B only and that A's late result is discarded.  Evaluating the model of
`WordInfo` on exactly this event trace shows the final state has word B
selected but displays A's entry: the completion handler (page.tsx lines
230-231) applies any resolved result unconditionally, with no generation
or staleness check, so the last-resolving lookup wins, not the
last-initiated one. -/
theorem c1_stale_lookup_overwrites_latest :
    (runWordInfo initialWordInfoState c1RaceTrace).selectedWord = some lookupWordB
    ∧ (runWordInfo initialWordInfoState c1RaceTrace).jishoData = some entryA
    ∧ entryA ≠ entryB := by
  refine ⟨rfl, rfl, by decide⟩

/-- Claim C2 (confirmed): for every token sequence, concatenating the
surface strings of all tokens of all words produced by `groupTokens`, in
order, equals concatenating the surface strings of the input tokens in
order — grouping never drops, reorders, or duplicates a token's surface
text. -/
theorem c2_grouping_preserves_surface_text (ts : List KuromojiToken) :
    String.join ((groupTokens ts).map fun w => String.join (w.map AnalyzedToken.surface))
      = String.join (ts.map KuromojiToken.surface_form) := by
  rw [string_join_flatten, groupTokens_flatten, List.map_map]
  rfl

/-- Claim C3 (confirmed): every word produced by `groupTokens` is a
non-empty token list; the words' token lists concatenated in order equal
the input exactly, token for token (each input token converted by
`mkAnalyzedToken`, with no reordering, duplication or omission); grouping
the empty sequence gives the empty word list; and the output is empty only
if the input is empty. -/
theorem c3_group_partitions_input :
    (∀ ts : List KuromojiToken,
        (groupTokens ts).flatten = ts.map mkAnalyzedToken
        ∧ (∀ w ∈ groupTokens ts, w ≠ [])
        ∧ (groupTokens ts = [] → ts = []))
    ∧ groupTokens [] = [] := by
  refine ⟨fun ts => ⟨groupTokens_flatten ts, groupTokens_ne_nil ts, ?_⟩, rfl⟩
  intro h
  have hfl := groupTokens_flatten ts
  rw [h] at hfl
  simpa using hfl.symm

/-- Witness for C3 at the concrete scenario tokens: the partition equation
holds for `c5Tokens`, the first produced word is a non-empty member of the
output, and the emptiness implication fires on the empty input. -/
theorem c3_group_partitions_input_witness :
    (groupTokens c5Tokens).flatten = c5Tokens.map mkAnalyzedToken
    ∧ ((c5Tokens.take 3).map mkAnalyzedToken ∈ groupTokens c5Tokens
        ∧ (c5Tokens.take 3).map mkAnalyzedToken ≠ [])
    ∧ ([] : List KuromojiToken) = [] :=
  ⟨(c3_group_partitions_input.1 c5Tokens).1,
   ⟨by decide,
    (c3_group_partitions_input.1 c5Tokens).2.1 ((c5Tokens.take 3).map mkAnalyzedToken)
      (by decide)⟩,
   (c3_group_partitions_input.1 []).2.2 rfl⟩

/-- Claim C4 (confirmed): for a token arriving at a non-empty open word,
`groupStep` appends the token to the open word exactly when one of the four
continuation conditions of the spec holds of the token and the
part-of-speech of the last token currently in the open word (`prevPosOf`),
and otherwise emits the open word and starts a new one with the token;
moreover a chain verb → non-independent-verb → ... → non-independent-verb
of any length groups into a single word, because each step re-evaluates
against the last token of the open word. -/
theorem c4_open_word_continuation :
    (∀ (wl : List AnalyzedWord) (cw : AnalyzedWord) (t : KuromojiToken), cw ≠ [] →
        (specContinue t (prevPosOf cw) →
            groupStep (wl, cw) t = (wl, cw ++ [mkAnalyzedToken t]))
        ∧ (¬ specContinue t (prevPosOf cw) →
            groupStep (wl, cw) t = (wl ++ [cw], [mkAnalyzedToken t])))
    ∧ (∀ (v nv : KuromojiToken) (n : Nat),
        v.pos = "動詞" → nv.pos = "動詞" → nv.pos_detail_1 = "非自立" →
        groupTokens (v :: List.replicate n nv)
          = [mkAnalyzedToken v :: List.replicate n (mkAnalyzedToken nv)]) := by
  constructor
  · intro wl cw t h
    constructor
    · intro hs
      rw [groupStep_of_ne_nil wl cw t h, if_pos ((continueCond_iff t _).mpr hs)]
    · intro hs
      have hb : ¬ continueCond t (prevPosOf cw) = true :=
        fun hb => hs ((continueCond_iff t _).mp hb)
      rw [groupStep_of_ne_nil wl cw t h, if_neg hb]
  · intro v nv n hv hnv hdet
    unfold groupTokens
    have hne : (v :: List.replicate n nv).isEmpty = false := rfl
    rw [hne]
    simp only [Bool.false_eq_true, if_false]
    rw [List.foldl_cons]
    have hstep : groupStep ([], []) v = ([], [mkAnalyzedToken v]) := rfl
    rw [hstep]
    rw [chain_fold nv hnv hdet n [] [mkAnalyzedToken v] (by simp)
        (by simp [prevPosOf, mkAnalyzedToken, hv])]
    simp

/-- Witness for C4: an auxiliary-verb token after a verb-final open word is
appended, and a verb followed by two non-independent verbs groups into one
word. -/
theorem c4_open_word_continuation_witness :
    ((verbOpenWord : AnalyzedWord) ≠ []
      ∧ specContinue auxTaToken (prevPosOf verbOpenWord))
    ∧ groupStep ([], verbOpenWord) auxTaToken
        = ([], verbOpenWord ++ [mkAnalyzedToken auxTaToken])
    ∧ groupTokens (mainVerbToken :: List.replicate 2 nonIndepVerbToken)
        = [mkAnalyzedToken mainVerbToken
            :: List.replicate 2 (mkAnalyzedToken nonIndepVerbToken)] :=
  ⟨⟨by decide, (continueCond_iff auxTaToken (prevPosOf verbOpenWord)).mp (by decide)⟩,
   (c4_open_word_continuation.1 [] verbOpenWord auxTaToken (by decide)).1
     ((continueCond_iff auxTaToken (prevPosOf verbOpenWord)).mp (by decide)),
   c4_open_word_continuation.2 mainVerbToken nonIndepVerbToken 2 rfl rfl rfl⟩

/-- Claim C5 (confirmed): on the five scenario tokens — 食べ (verb), た
(auxiliary verb), の (conjunctive particle), 猫 (noun), たち (suffix noun) —
`groupTokens` yields exactly two words, the first with surfaces
食べ, た, の in order and the second with 猫, たち in order. -/
theorem c5_grouping_scenario :
    (groupTokens c5Tokens).map (fun w => w.map AnalyzedToken.surface)
      = [["食べ", "た", "の"], ["猫", "たち"]] := by
  rfl

/-- Counterexample to claim C6 as stated: the token `emptyReadingToken`
carries a present reading, the empty string, yet the reading of the
corresponding output token is its surface 猫, not the (empty) reading —
JavaScript `||` also falls back on the empty string, which is present but
falsy, so "equals the token's reading when one is present" fails here. -/
theorem c6_counterexample_empty_reading :
    emptyReadingToken.reading = some ""
    ∧ (groupTokens [emptyReadingToken]).flatten.map AnalyzedToken.reading = ["猫"]
    ∧ ("猫" : String) ≠ "" := by
  refine ⟨rfl, rfl, by decide⟩

/-- Claim C6 (corrected): for every token in the input, the reading field of
the corresponding output token equals the token's reading when a non-empty
reading is present, and falls back to the token's surface form when the
reading is absent or empty. -/
theorem c6_reading_fallback :
    (∀ ts : List KuromojiToken,
        (groupTokens ts).flatten.map AnalyzedToken.reading
          = ts.map fun t => jsOr t.reading t.surface_form)
    ∧ (∀ (t : KuromojiToken) (r : String), t.reading = some r → r ≠ "" →
        (mkAnalyzedToken t).reading = r)
    ∧ (∀ t : KuromojiToken, (t.reading = none ∨ t.reading = some "") →
        (mkAnalyzedToken t).reading = t.surface_form) := by
  refine ⟨fun ts => ?_, fun t r hr hne => ?_, fun t hr => ?_⟩
  · rw [groupTokens_flatten, List.map_map]
    rfl
  · simp [mkAnalyzedToken, jsOr, hr, hne]
  · rcases hr with hr | hr <;> simp [mkAnalyzedToken, jsOr, hr]

/-- Witness for C6: a token with the non-empty reading ネコ keeps it, and
the empty-reading token falls back to its surface. -/
theorem c6_reading_fallback_witness :
    (mkAnalyzedToken (mkTestToken "猫" "ネコ" "名詞" "一般")).reading = "ネコ"
    ∧ (mkAnalyzedToken emptyReadingToken).reading = emptyReadingToken.surface_form :=
  ⟨c6_reading_fallback.2.1 (mkTestToken "猫" "ネコ" "名詞" "一般") "ネコ" rfl (by decide),
   c6_reading_fallback.2.2 emptyReadingToken (Or.inr rfl)⟩

/-- Claim C7 (confirmed): when the input is non-blank but the tokenizer is
still loading or not yet built, `handleAnalyse` only sets the distinct
"not ready" error message and returns — the tokenize function is not
invoked (the invocation flag is `false`) and every other state field is
left unchanged; the handler is a total function, so the request neither
blocks nor queues.  The "not ready" message is distinct from the blank
input message. -/
theorem c7_not_ready_fails_fast (s : AppState)
    (hblank : jsTrim s.inputText ≠ "")
    (hnr : s.tokenizerLoading = true ∨ s.tokenizer = none) :
    handleAnalyse s
      = ({ s with error := some "Tokenizer is not ready yet. Please wait." }, false)
    ∧ ("Tokenizer is not ready yet. Please wait." : String)
        ≠ "Please enter some text to analyze." := by
  refine ⟨?_, by decide⟩
  unfold handleAnalyse
  rw [if_neg hblank]
  rcases hnr with h | h
  · rw [if_pos h]
  · by_cases hl : s.tokenizerLoading = true
    · rw [if_pos hl]
    · rw [if_neg hl, h]

/-- Witness for C7: a concrete not-ready state with non-blank input. -/
theorem c7_not_ready_fails_fast_witness :
    jsTrim notReadyAppState.inputText ≠ ""
    ∧ (notReadyAppState.tokenizerLoading = true ∨ notReadyAppState.tokenizer = none)
    ∧ handleAnalyse notReadyAppState
        = ({ notReadyAppState with
              error := some "Tokenizer is not ready yet. Please wait." }, false) :=
  ⟨by decide, Or.inl rfl,
   (c7_not_ready_fails_fast notReadyAppState (by decide) (Or.inl rfl)).1⟩

/-- Claim C8 (confirmed): for every completed lookup, a successful call
whose body has at least one entry yields the first entry; a successful call
with zero entries (or no data field) yields the absent-entry outcome
`Except.ok none`, not an error; a failed (non-ok) call yields the error
outcome; and the error outcome arises only from a failed call. -/
theorem c8_lookup_outcomes (resp : JishoApiResponse) :
    (∀ (d : JishoData) (rest : List JishoData),
        resp.ok = true → resp.data = some (d :: rest) →
        getWordMeaningWithJisho resp = Except.ok (some d))
    ∧ (resp.ok = true → (resp.data = none ∨ resp.data = some []) →
        getWordMeaningWithJisho resp = Except.ok none)
    ∧ (resp.ok = false →
        getWordMeaningWithJisho resp
          = Except.error ("Jisho API call failed with status: " ++ toString resp.status))
    ∧ (∀ e, getWordMeaningWithJisho resp = Except.error e → resp.ok = false) := by
  refine ⟨?_, ?_, ?_, ?_⟩
  · intro d rest hok hdata
    simp [getWordMeaningWithJisho, hok, hdata]
  · intro hok hd
    rcases hd with hd | hd <;> simp [getWordMeaningWithJisho, hok, hd]
  · intro hok
    simp [getWordMeaningWithJisho, hok]
  · intro e he
    cases hok : resp.ok
    · rfl
    · exfalso
      rw [getWordMeaningWithJisho, hok] at he
      simp only [Bool.not_true, Bool.false_eq_true, if_false] at he
      cases hd : resp.data with
      | none => rw [hd] at he; simp at he
      | some l =>
        cases l with
        | nil => rw [hd] at he; simp at he
        | cons a as => rw [hd] at he; simp at he

/-- Witness for C8: an ok response with two entries yields the first. -/
theorem c8_lookup_outcomes_witness :
    okTwoEntryResponse.ok = true
    ∧ getWordMeaningWithJisho okTwoEntryResponse = Except.ok (some entryB) :=
  ⟨rfl, (c8_lookup_outcomes okTwoEntryResponse).1 entryB [entryA] rfl rfl⟩

/-- Counterexample to claim C9 as stated: `nekoWord1` and `nekoWord2` are
two different words with identical surface text 猫, yet with `nekoWord1`
as the current selection, `nekoWord2` is also marked selected — selection
marking compares hyphen-joined surface keys by value, with no generation
counter anywhere in the code. -/
theorem c9_counterexample_identical_surface :
    nekoWord1 ≠ nekoWord2
    ∧ nekoWord1.map AnalyzedToken.surface = nekoWord2.map AnalyzedToken.surface
    ∧ isSelected (some nekoWord1) nekoWord2 = true := by
  decide

/-- Claim C9 (corrected): the app stores at most one currently selected
word (a single optional state slot written by `handleWordSelect`), but the
current selection is identified by value equality of the words'
hyphen-joined surface keys, not by a generation counter, so any word whose
surface texts agree with the selected word's is marked as the current
selection; with no selection nothing is marked. -/
theorem c9_selection_by_key :
    (∀ (w : AnalyzedWord) (s : AppState), (handleWordSelect w s).selectedWord = some w)
    ∧ (∀ sel w : AnalyzedWord,
        w.map AnalyzedToken.surface = sel.map AnalyzedToken.surface →
        isSelected (some sel) w = true)
    ∧ (∀ w : AnalyzedWord, isSelected none w = false) := by
  refine ⟨fun w s => rfl, fun sel w h => ?_, fun w => rfl⟩
  simp [isSelected, createKey, h]

/-- Witness for C9: selecting `nekoWord1` stores it, and the
surface-identical `nekoWord2` is marked selected. -/
theorem c9_selection_by_key_witness :
    nekoWord2.map AnalyzedToken.surface = nekoWord1.map AnalyzedToken.surface
    ∧ (handleWordSelect nekoWord1 notReadyAppState).selectedWord = some nekoWord1
    ∧ isSelected (some nekoWord1) nekoWord2 = true :=
  ⟨by decide,
   c9_selection_by_key.1 nekoWord1 notReadyAppState,
   c9_selection_by_key.2.1 nekoWord1 nekoWord2 (by decide)⟩

/-- Claim C10 (confirmed): on both rejection paths of `handleAnalyse` —
blank input, or tokenizer not ready — the handler sets an error message and
returns before touching any other state: the displayed analysis, the
selected word, the loading flag and the input text are all unchanged, and
the tokenizer is not invoked. -/
theorem c10_error_paths_preserve_state (s : AppState)
    (h : jsTrim s.inputText = "" ∨ s.tokenizerLoading = true ∨ s.tokenizer = none) :
    (handleAnalyse s).1.analysis = s.analysis
    ∧ (handleAnalyse s).1.selectedWord = s.selectedWord
    ∧ (handleAnalyse s).1.isLoading = s.isLoading
    ∧ (handleAnalyse s).1.inputText = s.inputText
    ∧ (∃ m, (handleAnalyse s).1.error = some m)
    ∧ (handleAnalyse s).2 = false := by
  by_cases hb : jsTrim s.inputText = ""
  · unfold handleAnalyse
    rw [if_pos hb]
    exact ⟨rfl, rfl, rfl, rfl, ⟨_, rfl⟩, rfl⟩
  · rcases h with h | h | h
    · exact absurd h hb
    · unfold handleAnalyse
      rw [if_neg hb, if_pos h]
      exact ⟨rfl, rfl, rfl, rfl, ⟨_, rfl⟩, rfl⟩
    · by_cases hl : s.tokenizerLoading = true
      · unfold handleAnalyse
        rw [if_neg hb, if_pos hl]
        exact ⟨rfl, rfl, rfl, rfl, ⟨_, rfl⟩, rfl⟩
      · unfold handleAnalyse
        rw [if_neg hb, if_neg hl, h]
        exact ⟨rfl, rfl, rfl, rfl, ⟨_, rfl⟩, rfl⟩

/-- Witness for C10: a concrete blank-input state keeps its analysis and
selection. -/
theorem c10_error_paths_preserve_state_witness :
    jsTrim blankInputAppState.inputText = ""
    ∧ (handleAnalyse blankInputAppState).1.analysis = blankInputAppState.analysis
    ∧ (handleAnalyse blankInputAppState).1.selectedWord = blankInputAppState.selectedWord
    ∧ (handleAnalyse blankInputAppState).2 = false :=
  ⟨rfl,
   (c10_error_paths_preserve_state blankInputAppState (Or.inl rfl)).1,
   (c10_error_paths_preserve_state blankInputAppState (Or.inl rfl)).2.1,
   (c10_error_paths_preserve_state blankInputAppState (Or.inl rfl)).2.2.2.2.2⟩
